import Mathlib

/-!
Shallow embedding of the UK tax calculator repository (backend tax engines)
over exact rational arithmetic, together with theorems checking the
natural-language specification against the code.

Python `Decimal` quantities are embedded as `ℚ`; `Decimal.quantize('0.01',
ROUND_HALF_UP)` is `quantize2` below, and Python's built-in `round(x, 2)`
(banker's rounding) is `pyRound2`.  Fallible entry points (functions that
raise `ValidationError` / `ValueError`) are embedded as `Except String _`.
-/

/-- Rounding of `Decimal.quantize(Decimal('0.01'), rounding=ROUND_HALF_UP)`:
round to 2 decimal places, ties away from floor (for the non-negative amounts
appearing in the code this is exactly Python's ROUND_HALF_UP). -/
def quantize2 (x : ℚ) : ℚ := ((round (100 * x) : ℤ) : ℚ) / 100

/-- Integer rounding half-to-even, as Python's built-in `round`. -/
def roundHalfEven (x : ℚ) : ℤ :=
  let f := ⌊x⌋
  let r := x - (f : ℚ)
  if r < 1/2 then f
  else if 1/2 < r then f + 1
  else if Even f then f else f + 1

/-- Python's `round(x, 2)` (banker's rounding to 2 decimal places). -/
def pyRound2 (x : ℚ) : ℚ := ((roundHalfEven (100 * x) : ℤ) : ℚ) / 100

/-- True exactly on the `error` constructor of `Except`. -/
def isErr {ε α : Type} : Except ε α → Bool
  | Except.error _ => true
  | Except.ok _ => false

theorem isErr_error {ε α : Type} (e : ε) : isErr (Except.error e : Except ε α) = true := rfl

theorem isErr_of_eq_error {ε α : Type} {x : Except ε α} {e : ε}
    (h : x = Except.error e) : isErr x = true := by rw [h]; rfl

theorem round_mono_q {x y : ℚ} (h : x ≤ y) : round x ≤ round y := by
  rw [round_eq, round_eq]
  exact Int.floor_le_floor (by linarith)

theorem quantize2_mono {x y : ℚ} (h : x ≤ y) : quantize2 x ≤ quantize2 y := by
  unfold quantize2
  have hr : round (100 * x) ≤ round (100 * y) := round_mono_q (by linarith)
  have : ((round (100 * x) : ℤ) : ℚ) ≤ ((round (100 * y) : ℤ) : ℚ) := by exact_mod_cast hr
  linarith

theorem quantize2_zero : quantize2 0 = 0 := by
  unfold quantize2
  norm_num

theorem quantize2_nonneg {x : ℚ} (h : 0 ≤ x) : 0 ≤ quantize2 x := by
  have := quantize2_mono h
  rwa [quantize2_zero] at this

theorem quantize2_err_le {x : ℚ} : |quantize2 x - x| ≤ 1 / 200 := by
  have h := abs_sub_round (100 * x)
  have heq : quantize2 x - x = -((100 * x - ((round (100 * x) : ℤ) : ℚ)) / 100) := by
    unfold quantize2; ring
  rw [heq, abs_neg, abs_div]
  have h100 : |(100 : ℚ)| = 100 := by norm_num
  rw [h100]
  linarith [h]

/-!
PAYECalculator, from src/backend/uk_tax_calculator.py.  2024/25 constants are
class-level literals in the source.  `calculate` validates, tapers the
personal allowance, and taxes the taxable income in three bands, quantizing
each band's tax to 2 decimal places with ROUND_HALF_UP.
-/

namespace PAYECalculator

def PERSONAL_ALLOWANCE : ℚ := 12570

def BASIC_RATE_THRESHOLD : ℚ := 50270

def HIGHER_RATE_THRESHOLD : ℚ := 150000

def BASIC_RATE : ℚ := 20 / 100

def HIGHER_RATE : ℚ := 40 / 100

def ADDITIONAL_RATE : ℚ := 45 / 100

/-- `PAYECalculator.validate_inputs`: negative gross income, negative
deductions, and deductions exceeding gross income each raise. -/
def validate_inputs (gross_income deductions : ℚ) : Except String Unit :=
  if gross_income < 0 then Except.error ("Gross income cannot be negative")
  else if deductions < 0 then Except.error ("Deductions cannot be negative")
  else if gross_income < deductions then Except.error ("Deductions cannot exceed gross income")
  else Except.ok ()

/-- The personal-allowance taper of `PAYECalculator.calculate` (source lines
94-98): above £100,000 the allowance is reduced by half the excess, floored
at 0. -/
def taperedAllowance (adjusted_income : ℚ) : ℚ :=
  if 100000 < adjusted_income then
    max 0 (PERSONAL_ALLOWANCE - (adjusted_income - 100000) / 2)
  else PERSONAL_ALLOWANCE

/-- Taxable income of `PAYECalculator.calculate`: adjusted income minus the
tapered allowance, floored at 0. -/
def taxableIncome (adjusted_income : ℚ) : ℚ :=
  max 0 (adjusted_income - taperedAllowance adjusted_income)

/-- Basic-rate band tax of `PAYECalculator.calculate` as a function of the
taxable income. -/
def basicTax (t : ℚ) : ℚ :=
  if 0 < t then
    if 0 < min t (BASIC_RATE_THRESHOLD - PERSONAL_ALLOWANCE) then
      quantize2 (min t (BASIC_RATE_THRESHOLD - PERSONAL_ALLOWANCE) * BASIC_RATE)
    else 0
  else 0

/-- Higher-rate band tax of `PAYECalculator.calculate` as a function of the
taxable income. -/
def higherTax (t : ℚ) : ℚ :=
  if 0 < t ∧ BASIC_RATE_THRESHOLD - PERSONAL_ALLOWANCE < t then
    if 0 < min (t - (BASIC_RATE_THRESHOLD - PERSONAL_ALLOWANCE))
        ((HIGHER_RATE_THRESHOLD - PERSONAL_ALLOWANCE) - (BASIC_RATE_THRESHOLD - PERSONAL_ALLOWANCE)) then
      quantize2 (min (t - (BASIC_RATE_THRESHOLD - PERSONAL_ALLOWANCE))
        ((HIGHER_RATE_THRESHOLD - PERSONAL_ALLOWANCE) - (BASIC_RATE_THRESHOLD - PERSONAL_ALLOWANCE))
        * HIGHER_RATE)
    else 0
  else 0

/-- Additional-rate band tax of `PAYECalculator.calculate` as a function of
the taxable income. -/
def additionalTax (t : ℚ) : ℚ :=
  if 0 < t ∧ HIGHER_RATE_THRESHOLD - PERSONAL_ALLOWANCE < t then
    quantize2 ((t - (HIGHER_RATE_THRESHOLD - PERSONAL_ALLOWANCE)) * ADDITIONAL_RATE)
  else 0

structure Result where
  gross_income : ℚ
  deductions : ℚ
  personal_allowance : ℚ
  taxable_income : ℚ
  basic_rate_tax : ℚ
  higher_rate_tax : ℚ
  additional_rate_tax : ℚ
  total_tax : ℚ
  net_income : ℚ
deriving DecidableEq, Repr

/-- The computation of `PAYECalculator.calculate` after validation has
passed. -/
def calcCore (gross deduct : ℚ) : Result :=
  let adjusted := gross - deduct
  let pa := taperedAllowance adjusted
  let t := max 0 (adjusted - pa)
  let b := basicTax t
  let h := higherTax t
  let a := additionalTax t
  { gross_income := gross
    deductions := deduct
    personal_allowance := pa
    taxable_income := t
    basic_rate_tax := b
    higher_rate_tax := h
    additional_rate_tax := a
    total_tax := b + h + a
    net_income := gross - (b + h + a) }

/-- `PAYECalculator.calculate`: validate, then compute. -/
def calculate (gross_income deductions : ℚ) : Except String Result :=
  match validate_inputs gross_income deductions with
  | Except.error e => Except.error e
  | Except.ok _ => Except.ok (calcCore gross_income deductions)

end PAYECalculator

/-- Convenience function `calculate_paye` of src/backend/uk_tax_calculator.py:
constructs a `PAYECalculator` and delegates. -/
def calculate_paye (gross_income deductions : ℚ) : Except String PAYECalculator.Result :=
  PAYECalculator.calculate gross_income deductions

/-!
SelfAssessmentCalculator, from src/backend/uk_tax_calculator.py.  Income
sources are (type, amount) pairs and deductions are (type, amount) pairs;
validation rejects an empty source list, any negative income amount, any
deduction type outside the allowed four, and any negative deduction amount.
The calculation sums incomes and deductions and delegates to
`PAYECalculator.calculate`.
-/

namespace SelfAssessmentCalculator

/-- The income-source loop of `SelfAssessmentCalculator.validate_inputs`:
errors on the first negative amount. -/
def validateSources : List (String × ℚ) → Except String Unit
  | [] => Except.ok ()
  | (t, a) :: rest =>
    if a < 0 then Except.error ("Income amount cannot be negative for " ++ t)
    else validateSources rest

/-- The deduction loop of `SelfAssessmentCalculator.validate_inputs`: errors
on an invalid deduction type or a negative amount. -/
def validateDeductions : List (String × ℚ) → Except String Unit
  | [] => Except.ok ()
  | (t, a) :: rest =>
    if t = "pension" ∨ t = "charity" ∨ t = "trading_losses" ∨ t = "other" then
      if a < 0 then Except.error ("Deduction amount cannot be negative for " ++ t)
      else validateDeductions rest
    else Except.error ("Invalid deduction type: " ++ t)

/-- Sum of the amounts of a (type, amount) list. -/
def sumAmounts (l : List (String × ℚ)) : ℚ := (l.map Prod.snd).sum

/-- `SelfAssessmentCalculator.calculate`: validate, total the incomes and
deductions, delegate to the PAYE calculator (whose own validation can still
raise, e.g. when total deductions exceed total income). -/
def calculate (income_sources deductions : List (String × ℚ)) :
    Except String PAYECalculator.Result :=
  if income_sources = [] then
    Except.error ("At least one income source must be provided")
  else
    match validateSources income_sources with
    | Except.error e => Except.error e
    | Except.ok _ =>
      match validateDeductions deductions with
      | Except.error e => Except.error e
      | Except.ok _ =>
        PAYECalculator.calculate (sumAmounts income_sources) (sumAmounts deductions)

end SelfAssessmentCalculator

/-!
CorporateTaxCalculator, from src/backend/uk_tax_calculator.py.  Validation
rejects any negative input; the calculation subtracts expenses, the R&D
credit and brought-forward losses (flooring the taxable profit at 0), then
applies the small-profits rate, the main rate, or the main rate less
marginal relief.
-/

namespace CorporateTaxCalculator

def SMALL_PROFITS_RATE : ℚ := 19 / 100

def MAIN_RATE : ℚ := 25 / 100

def SMALL_PROFITS_THRESHOLD : ℚ := 50000

def MAIN_RATE_THRESHOLD : ℚ := 250000

def RD_SME_CREDIT_RATE : ℚ := 86 / 100

def RD_LARGE_CREDIT_RATE : ℚ := 13 / 100

/-- `CorporateTaxCalculator.validate_inputs`. -/
def validate_inputs (gross_profit allowable_expenses rd_expenditure losses_brought_forward : ℚ) :
    Except String Unit :=
  if gross_profit < 0 then Except.error ("Gross profit cannot be negative")
  else if allowable_expenses < 0 then Except.error ("Allowable expenses cannot be negative")
  else if rd_expenditure < 0 then Except.error ("R and D expenditure cannot be negative")
  else if losses_brought_forward < 0 then Except.error ("Losses brought forward cannot be negative")
  else Except.ok ()

/-- `CorporateTaxCalculator.calculate_marginal_relief`: zero outside the
(lower, upper) profit window, otherwise the quantized marginal-relief
formula.  The source multiplies by `taxable_profit / taxable_profit`, which
is 1 in the window. -/
def calculate_marginal_relief (taxable_profit : ℚ) : ℚ :=
  if taxable_profit ≤ SMALL_PROFITS_THRESHOLD then 0
  else if MAIN_RATE_THRESHOLD ≤ taxable_profit then 0
  else
    quantize2 ((MAIN_RATE_THRESHOLD - taxable_profit) * (15 / 1000)
      * (taxable_profit / taxable_profit))

/-- The three-regime corporation-tax branch of `CorporateTaxCalculator.calculate`
(source lines 416-435) as a function of the taxable profit. -/
def taxOnTaxableProfit (t : ℚ) : ℚ :=
  if t ≤ SMALL_PROFITS_THRESHOLD then quantize2 (t * SMALL_PROFITS_RATE)
  else if MAIN_RATE_THRESHOLD ≤ t then quantize2 (t * MAIN_RATE)
  else quantize2 (t * MAIN_RATE) - calculate_marginal_relief t

structure CorpResult where
  gross_profit : ℚ
  allowable_expenses : ℚ
  adjusted_profit : ℚ
  rd_expenditure : ℚ
  rd_tax_credit : ℚ
  losses_brought_forward : ℚ
  taxable_profit : ℚ
  marginal_relief : ℚ
  corporation_tax : ℚ
  effective_rate : ℚ
  net_profit : ℚ
deriving DecidableEq, Repr

/-- The computation of `CorporateTaxCalculator.calculate` after validation
has passed.  In the two outer regimes the source sets `marginal_relief = 0`,
which agrees with `calculate_marginal_relief` there. -/
def calcCore (gross expenses rd_spend losses : ℚ) (is_sme : Bool) : CorpResult :=
  let adjusted_profit := gross - expenses
  let rd_tax_credit :=
    if 0 < rd_spend then
      if is_sme then quantize2 (rd_spend * RD_SME_CREDIT_RATE)
      else quantize2 (rd_spend * RD_LARGE_CREDIT_RATE)
    else 0
  let profit_after_rd := adjusted_profit - rd_tax_credit
  let taxable_profit := max 0 (profit_after_rd - losses)
  let corporation_tax := taxOnTaxableProfit taxable_profit
  let marginal_relief := calculate_marginal_relief taxable_profit
  let effective_rate :=
    if 0 < taxable_profit then quantize2 (corporation_tax / taxable_profit * 100) else 0
  { gross_profit := gross
    allowable_expenses := expenses
    adjusted_profit := adjusted_profit
    rd_expenditure := rd_spend
    rd_tax_credit := rd_tax_credit
    losses_brought_forward := losses
    taxable_profit := taxable_profit
    marginal_relief := marginal_relief
    corporation_tax := corporation_tax
    effective_rate := effective_rate
    net_profit := gross - expenses - corporation_tax }

/-- `CorporateTaxCalculator.calculate`: validate, then compute. -/
def calculate (gross expenses rd_spend losses : ℚ) (is_sme : Bool) :
    Except String CorpResult :=
  match validate_inputs gross expenses rd_spend losses with
  | Except.error e => Except.error e
  | Except.ok _ => Except.ok (calcCore gross expenses rd_spend losses is_sme)

end CorporateTaxCalculator

/-!
UKTaxComputations.compute_tax_from_transactions, from
src/backend/uk_tax_computations.py: the corporation-tax core (lines 250-265)
as a function of the taxable profit derived from imported transactions.
This duplicate implementation works in unrounded floats (exact rationals
here) with the hard-coded marginal fraction 0.015.
-/

namespace UKTaxComputations

/-- Corporation tax of `compute_tax_from_transactions` as a function of the
taxable profit. -/
def corporationTaxOnProfit (taxable_profit : ℚ) : ℚ :=
  if 0 < taxable_profit then
    if taxable_profit ≤ 50000 then taxable_profit * (19 / 100)
    else if 250000 ≤ taxable_profit then taxable_profit * (25 / 100)
    else taxable_profit * (25 / 100) - (250000 - taxable_profit) * (15 / 1000)
  else 0

end UKTaxComputations

/-!
TaxRules and TaxOptimizer, from src/backend/tax_optimizer.py.  `TaxRules` is
a dataclass of 2024/25 constants; `TaxOptimizer` holds a `TaxRules` and its
methods perform no input validation.
-/

structure TaxRules where
  personal_allowance : ℚ := 12570
  personal_allowance_taper_threshold : ℚ := 100000
  basic_rate_limit : ℚ := 50270
  higher_rate_limit : ℚ := 125140
  basic_rate : ℚ := 20 / 100
  higher_rate : ℚ := 40 / 100
  additional_rate : ℚ := 45 / 100
  ni_class1_rate : ℚ := 12 / 100
  ni_class1_reduced_rate : ℚ := 2 / 100
  ni_class2_weekly : ℚ := 345 / 100
  ni_class2_threshold : ℚ := 6725
  ni_class4_rate : ℚ := 9 / 100
  ni_class4_reduced_rate : ℚ := 2 / 100
  corporation_small_rate : ℚ := 19 / 100
  corporation_main_rate : ℚ := 25 / 100
  corporation_small_threshold : ℚ := 50000
  corporation_main_threshold : ℚ := 250000
  cgt_annual_exemption : ℚ := 3000
  cgt_basic_rate : ℚ := 10 / 100
  cgt_higher_rate : ℚ := 20 / 100
  cgt_property_basic_rate : ℚ := 18 / 100
  cgt_property_higher_rate : ℚ := 24 / 100
  trading_allowance : ℚ := 1000
  property_allowance : ℚ := 1000
  dividend_allowance : ℚ := 500
  savings_allowance_basic : ℚ := 1000
  savings_allowance_higher : ℚ := 500
  marriage_allowance : ℚ := 1260
  pension_annual_allowance : ℚ := 60000
  dividend_basic_rate : ℚ := 875 / 10000
  dividend_higher_rate : ℚ := 3375 / 10000
  dividend_additional_rate : ℚ := 3938 / 10000
  vat_standard_rate : ℚ := 20 / 100
  vat_threshold : ℚ := 90000

/-- The default `TaxRules()` used by `TaxOptimizer()` when none is given. -/
def TaxRules.default2425 : TaxRules := {}

namespace TaxOptimizer

/-- `TaxOptimizer.calculate_personal_allowance`: full allowance at or below
the taper threshold, otherwise reduced by half the excess and floored at 0. -/
def calculate_personal_allowance (rules : TaxRules) (adjusted_income : ℚ) : ℚ :=
  if adjusted_income ≤ rules.personal_allowance_taper_threshold then
    rules.personal_allowance
  else
    max 0 (rules.personal_allowance - (adjusted_income - rules.personal_allowance_taper_threshold) / 2)

/-- Result of `TaxOptimizer.optimize_sole_trader` (the fields the verified
claims are about; the source also returns suggestion strings, whose presence
is captured by the Boolean flags). -/
structure SoleTraderOpt where
  current_profit : ℚ
  suggest_trading_allowance : Bool
  suggest_pension : Bool
  suggest_vat : Bool
  suggest_incorporation : Bool
deriving DecidableEq, Repr

/-- The body of `TaxOptimizer.optimize_sole_trader`: no validation is
performed in the source, so the embedding never errors. -/
def soleTraderOptCore (rules : TaxRules) (income expenses : ℚ) : SoleTraderOpt :=
  let profit := income - expenses
  { current_profit := profit
    suggest_trading_allowance := decide (expenses < rules.trading_allowance)
    suggest_pension := decide (rules.basic_rate_limit < profit)
    suggest_vat := decide (rules.vat_threshold * (85 / 100) < income)
    suggest_incorporation := decide (50000 < profit) }

/-- `TaxOptimizer.optimize_sole_trader`, embedded with the same error type
as the validating entry points to make the absence of validation visible:
every call returns `ok`. -/
def optimize_sole_trader (rules : TaxRules) (income expenses : ℚ) :
    Except String SoleTraderOpt :=
  Except.ok (soleTraderOptCore rules income expenses)

end TaxOptimizer

/-!
The classes `UKTaxCalculator`, `TaxReliefs` and `TaxConstants` are imported
by src/backend/tax_optimization_engine.py and src/backend/tax_optimization.py
from `backend.uk_tax_calculator`, but that file does not define them: only
their callers are in the repository.  They are modelled here from the
specification (sections 3, 4.2-4.6), with the 2024/25 constants the
repository uses everywhere else.
-/

/-- Modelled from the spec: `TaxYearSchedule` (spec section 3), the immutable
snapshot of thresholds and rates for one tax year. -/
structure TaxYearSchedule where
  personal_allowance : ℚ := 12570
  taper_threshold : ℚ := 100000
  basic_rate_threshold : ℚ := 50270
  higher_rate_threshold : ℚ := 125140
  basic_rate : ℚ := 20 / 100
  higher_rate : ℚ := 40 / 100
  additional_rate : ℚ := 45 / 100
  ni_primary_threshold : ℚ := 12570
  ni_upper_earnings_limit : ℚ := 50270
  ni_rate_below_uel : ℚ := 12 / 100
  ni_rate_above_uel : ℚ := 2 / 100
  ni_employer_threshold : ℚ := 9100
  ni_employer_rate : ℚ := 138 / 1000
  dividend_allowance : ℚ := 500
  dividend_basic_rate : ℚ := 875 / 10000
  dividend_higher_rate : ℚ := 3375 / 10000
  dividend_additional_rate : ℚ := 3938 / 10000
  corp_small_rate : ℚ := 19 / 100
  corp_main_rate : ℚ := 25 / 100
  corp_lower_limit : ℚ := 50000
  corp_upper_limit : ℚ := 250000
  corp_marginal_fraction : ℚ := 15 / 1000
  trading_allowance : ℚ := 1000
  property_allowance : ℚ := 1000
  pension_annual_allowance : ℚ := 60000

/-- The default 2024/25 schedule used by the engines. -/
def TaxYearSchedule.default2425 : TaxYearSchedule := {}

/-!
Modelled from the spec: the `TaxConstants` class imported by
src/backend/tax_optimization_engine.py, absent from src.  Values as used
throughout the repository's duplicate implementations.
-/

namespace TaxConstants

def PERSONAL_ALLOWANCE : ℚ := 12570

def BASIC_RATE : ℚ := 20 / 100

def ADDITIONAL_RATE : ℚ := 45 / 100

def CORPORATION_TAX_SMALL_PROFITS_RATE : ℚ := 19 / 100

def CORPORATION_TAX_MAIN_RATE : ℚ := 25 / 100

def ANNUAL_INVESTMENT_ALLOWANCE : ℚ := 1000000

def CGT_BASIC_RATE : ℚ := 10 / 100

end TaxConstants

namespace UKTaxCalculator

def DIVIDEND_ALLOWANCE : ℚ := 500

def DIVIDEND_BASIC_RATE : ℚ := 875 / 10000

/-- Modelled from the spec: the personal-allowance taper of the
`IncomeTaxEngine` (spec section 4.2), identical to the rule in the repo's
other implementations. -/
def taperedAllowanceS (sched : TaxYearSchedule) (income : ℚ) : ℚ :=
  if income ≤ sched.taper_threshold then sched.personal_allowance
  else max 0 (sched.personal_allowance - (income - sched.taper_threshold) / 2)

/-- Modelled from the spec: income tax on `income` via the progressive bands
(spec sections 4.1-4.2), exact arithmetic. -/
def incomeTaxOn (sched : TaxYearSchedule) (income : ℚ) : ℚ :=
  let pa := taperedAllowanceS sched income
  let taxable := max 0 (income - pa)
  let basic_width := sched.basic_rate_threshold - sched.personal_allowance
  let higher_width := sched.higher_rate_threshold - sched.basic_rate_threshold
  let in_basic := min taxable basic_width
  let in_higher := min (max 0 (taxable - basic_width)) higher_width
  let in_additional := max 0 (taxable - basic_width - higher_width)
  in_basic * sched.basic_rate + in_higher * sched.higher_rate
    + in_additional * sched.additional_rate

/-- Modelled from the spec: employee National Insurance (spec section 4.3):
`max(0, min(income, UEL) - PT) * rate_below + max(0, income - UEL) * rate_above`. -/
def employeeNI (sched : TaxYearSchedule) (income : ℚ) : ℚ :=
  max 0 (min income sched.ni_upper_earnings_limit - sched.ni_primary_threshold)
      * sched.ni_rate_below_uel
    + max 0 (income - sched.ni_upper_earnings_limit) * sched.ni_rate_above_uel

structure PayeResult where
  income_tax : ℚ
  employee_ni : ℚ
  total_employee_deductions : ℚ
  net_income : ℚ
deriving DecidableEq, Repr

/-- Modelled from the spec: `UKTaxCalculator.calculate_paye`, absent from
src (only callers are present): income tax plus employee NI, with
`total_employee_deductions` and `net_income` as consumed by the optimizers. -/
def calculate_paye (sched : TaxYearSchedule) (income : ℚ) : PayeResult :=
  let it := incomeTaxOn sched income
  let ni := employeeNI sched income
  { income_tax := it
    employee_ni := ni
    total_employee_deductions := it + ni
    net_income := income - (it + ni) }

/-- Modelled from the spec: the band allocation of the `DividendTaxEngine`
(spec section 4.4).  Taxable dividends (gross minus the dividend allowance,
floored at 0) fill the basic-band capacity left by other income, then the
remaining higher-band capacity, and the remainder falls in the
additional-rate band.  Returns (basic, higher, additional) allocations. -/
def dividendAllocations (sched : TaxYearSchedule) (dividends other_income : ℚ) :
    ℚ × ℚ × ℚ :=
  let taxable_dividends := max 0 (dividends - sched.dividend_allowance)
  let other_taxable := max 0 (other_income - taperedAllowanceS sched other_income)
  let basic_width := sched.basic_rate_threshold - sched.personal_allowance
  let higher_width := sched.higher_rate_threshold - sched.basic_rate_threshold
  let basic_remaining := max 0 (basic_width - other_taxable)
  let higher_used := min (max 0 (other_taxable - basic_width)) higher_width
  let higher_remaining := max 0 (higher_width - higher_used)
  let basic_alloc := min taxable_dividends basic_remaining
  let higher_alloc := min (taxable_dividends - basic_alloc) higher_remaining
  (basic_alloc, higher_alloc, taxable_dividends - basic_alloc - higher_alloc)

structure DividendResult where
  dividends : ℚ
  taxable_dividends : ℚ
  basic_alloc : ℚ
  higher_alloc : ℚ
  additional_alloc : ℚ
  dividend_tax : ℚ
deriving DecidableEq, Repr

/-- Modelled from the spec: `UKTaxCalculator.calculate_dividend_tax`, absent
from src: allocate, then tax each allocation at its dividend rate. -/
def calculate_dividend_tax (sched : TaxYearSchedule) (dividends other_income : ℚ) :
    DividendResult :=
  let alloc := dividendAllocations sched dividends other_income
  { dividends := dividends
    taxable_dividends := max 0 (dividends - sched.dividend_allowance)
    basic_alloc := alloc.1
    higher_alloc := alloc.2.1
    additional_alloc := alloc.2.2
    dividend_tax := alloc.1 * sched.dividend_basic_rate
      + alloc.2.1 * sched.dividend_higher_rate
      + alloc.2.2 * sched.dividend_additional_rate }

structure CorpTaxResult where
  corporation_tax : ℚ
  profit_after_tax : ℚ
  effective_rate : ℚ
deriving DecidableEq, Repr

/-- Modelled from the spec: `UKTaxCalculator.calculate_corporation_tax`,
absent from src: three regimes by profit (spec section 4.5) with marginal
relief between the limits; effective rate is 0 when the profit is 0. -/
def calculate_corporation_tax (sched : TaxYearSchedule) (profit : ℚ) : CorpTaxResult :=
  let tax :=
    if profit ≤ sched.corp_lower_limit then profit * sched.corp_small_rate
    else if sched.corp_upper_limit ≤ profit then profit * sched.corp_main_rate
    else profit * sched.corp_main_rate
      - (sched.corp_upper_limit - profit) * sched.corp_marginal_fraction
  { corporation_tax := tax
    profit_after_tax := profit - tax
    effective_rate := if profit = 0 then 0 else tax / profit }

end UKTaxCalculator

namespace TaxReliefs

def TRADING_ALLOWANCE : ℚ := 1000

def PROPERTY_ALLOWANCE : ℚ := 1000

def PENSION_ANNUAL_ALLOWANCE : ℚ := 60000

structure AllowanceResult where
  allowance_used : ℚ
  taxable_income : ℚ
deriving DecidableEq, Repr

/-- Modelled from the spec: `TaxReliefs.calculate_trading_allowance`, absent
from src: `allowance_used = min(income, limit)`, taxable = income minus
allowance used (spec section 4.6). -/
def calculate_trading_allowance (income : ℚ) : AllowanceResult :=
  { allowance_used := min income TRADING_ALLOWANCE
    taxable_income := income - min income TRADING_ALLOWANCE }

/-- Modelled from the spec: `TaxReliefs.calculate_property_allowance`, absent
from src, same rule with the property allowance. -/
def calculate_property_allowance (income : ℚ) : AllowanceResult :=
  { allowance_used := min income PROPERTY_ALLOWANCE
    taxable_income := income - min income PROPERTY_ALLOWANCE }

/-- Modelled from the spec: the marginal income-tax rate by band location,
used by pension relief (spec section 4.6). -/
def marginalRate (sched : TaxYearSchedule) (income : ℚ) : ℚ :=
  if income ≤ sched.personal_allowance then 0
  else if income ≤ sched.basic_rate_threshold then sched.basic_rate
  else if income ≤ sched.higher_rate_threshold then sched.higher_rate
  else sched.additional_rate

structure PensionReliefResult where
  pension_contribution : ℚ
  total_relief : ℚ
deriving DecidableEq, Repr

/-- Modelled from the spec: `TaxReliefs.calculate_pension_relief`, absent
from src: contribution capped at the annual allowance, relief at the
taxpayer's marginal rate. -/
def calculate_pension_relief (sched : TaxYearSchedule) (contribution income : ℚ) :
    PensionReliefResult :=
  let capped := min contribution sched.pension_annual_allowance
  { pension_contribution := capped
    total_relief := capped * marginalRate sched income }

end TaxReliefs

/-!
TaxOptimizationEngine, from src/backend/tax_optimization_engine.py (the
validating rewrite; src/backend/tax_optimization.py is the same logic
without validation).  Each optimizer validates its monetary inputs with
`_validate_required_fields` / `_validate_positive_amount` (a loop of
negativity checks) before any computation, wrapping the error message with
the optimizer's context.  The numeric cores call the modelled
`UKTaxCalculator` and `TaxReliefs`.
-/

namespace TaxOptimizationEngine

/-- The default 2024/25 schedule baked into the missing calculator class. -/
def sched : TaxYearSchedule := TaxYearSchedule.default2425

/-- `_validate_required_fields` / `_validate_positive_amount`: check a list
of (field name, value) pairs, erroring on the first negative value. -/
def validateNonneg : List (String × ℚ) → Except String Unit
  | [] => Except.ok ()
  | (name, v) :: rest =>
    if v < 0 then Except.error (name ++ " cannot be negative")
    else validateNonneg rest

/-- Wrap a validation result around a pure computation, prefixing the error
with the optimizer's context string as the source's re-raise does. -/
def withValidation {α : Type} (v : Except String Unit) (ctx : String) (r : α) :
    Except String α :=
  match v with
  | Except.error e => Except.error (ctx ++ e)
  | Except.ok _ => Except.ok r

/-- `OPTIMAL_DIRECTOR_SALARY = TaxConstants.PERSONAL_ALLOWANCE`. -/
def OPTIMAL_DIRECTOR_SALARY : ℚ := TaxConstants.PERSONAL_ALLOWANCE

structure DirectorResult where
  current_total_tax : ℚ
  optimal_total_tax : ℚ
  potential_saving : ℚ
  optimal_dividends : ℚ
deriving DecidableEq, Repr

/-- The numeric core of `optimize_for_director`. -/
def directorCore (salary dividends company_profit pension_contribution : ℚ) :
    DirectorResult :=
  let paye := UKTaxCalculator.calculate_paye sched salary
  let dividend_tax := UKTaxCalculator.calculate_dividend_tax sched dividends salary
  let corp_tax := UKTaxCalculator.calculate_corporation_tax sched company_profit
  let optimal_salary := OPTIMAL_DIRECTOR_SALARY
  let optimal_paye := UKTaxCalculator.calculate_paye sched optimal_salary
  let remaining_profit := company_profit - optimal_salary
  let optimal_corp_tax := UKTaxCalculator.calculate_corporation_tax sched remaining_profit
  let profit_after_corp_tax := remaining_profit - optimal_corp_tax.corporation_tax
  let optimal_dividend_tax :=
    UKTaxCalculator.calculate_dividend_tax sched profit_after_corp_tax optimal_salary
  let optimal_total_tax := optimal_paye.total_employee_deductions
    + optimal_corp_tax.corporation_tax + optimal_dividend_tax.dividend_tax
  let current_total_tax := paye.total_employee_deductions
    + corp_tax.corporation_tax + dividend_tax.dividend_tax
  { current_total_tax := pyRound2 current_total_tax
    optimal_total_tax := pyRound2 optimal_total_tax
    potential_saving := pyRound2 (current_total_tax - optimal_total_tax)
    optimal_dividends := pyRound2 profit_after_corp_tax }

/-- `optimize_for_director`: validate salary, dividends, company_profit and
pension_contribution (in source order), then compute. -/
def optimize_for_director (salary dividends company_profit pension_contribution : ℚ) :
    Except String DirectorResult :=
  withValidation
    (validateNonneg [("salary", salary), ("dividends", dividends),
      ("company_profit", company_profit), ("pension_contribution", pension_contribution)])
    ("Invalid input for director optimization: ")
    (directorCore salary dividends company_profit pension_contribution)

/-- Result of `optimize_for_sole_trader` (the `income_analysis` fields the
verified claims are about; `use_allowance` is true when `method_used` is
the string for the trading allowance). -/
structure SoleTraderResult where
  trading_income : ℚ
  allowable_expenses : ℚ
  capital_allowances : ℚ
  taxable_profit : ℚ
  use_allowance : Bool
deriving DecidableEq, Repr

/-- The numeric core of `optimize_for_sole_trader`: compare the
expenses-based profit with `trading_income - TRADING_ALLOWANCE`, switch to
the allowance when income is at or below the allowance or when the
allowance profit is lower and no expenses or capital allowances were
claimed; the reported taxable profit is `round(final, 2)`. -/
def soleTraderCore (trading_income allowable_expenses pension_contribution capital_allowances : ℚ) :
    SoleTraderResult :=
  let taxable_profit := trading_income - allowable_expenses - capital_allowances
  let profit_with_expenses := taxable_profit
  let profit_with_allowance := trading_income - TaxReliefs.TRADING_ALLOWANCE
  let use_allowance := decide (trading_income ≤ TaxReliefs.TRADING_ALLOWANCE)
    || (decide (profit_with_allowance < profit_with_expenses)
        && decide (allowable_expenses + capital_allowances = 0))
  let final_taxable_profit := if use_allowance then profit_with_allowance else profit_with_expenses
  { trading_income := trading_income
    allowable_expenses := allowable_expenses
    capital_allowances := capital_allowances
    taxable_profit := pyRound2 final_taxable_profit
    use_allowance := use_allowance }

/-- `optimize_for_sole_trader`: validate trading_income, allowable_expenses,
pension_contribution and capital_allowances (in source order), then compute. -/
def optimize_for_sole_trader (trading_income allowable_expenses pension_contribution capital_allowances : ℚ) :
    Except String SoleTraderResult :=
  withValidation
    (validateNonneg [("trading_income", trading_income),
      ("allowable_expenses", allowable_expenses),
      ("pension_contribution", pension_contribution),
      ("capital_allowances", capital_allowances)])
    ("Invalid input for sole trader optimization: ")
    (soleTraderCore trading_income allowable_expenses pension_contribution capital_allowances)

/-- The R&D relief computation of `optimize_for_company_owner` (source lines
417-422): a 130 percent enhanced deduction taxed at the small-profits
corporation rate, zero when there is no expenditure. -/
def rdRelief (r_and_d_expenditure : ℚ) : ℚ :=
  if 0 < r_and_d_expenditure then
    (r_and_d_expenditure * (130 / 100)) * TaxConstants.CORPORATION_TAX_SMALL_PROFITS_RATE
  else 0

structure CompanyOwnerResult where
  r_and_d_relief : ℚ
  capital_allowance_relief : ℚ
  total_relief : ℚ
  maximum_dividend : ℚ
deriving DecidableEq, Repr

/-- The numeric core of `optimize_for_company_owner`. -/
def companyOwnerCore (company_profit salary dividends r_and_d_expenditure capital_investment : ℚ) :
    CompanyOwnerResult :=
  let r_and_d_relief := rdRelief r_and_d_expenditure
  let capital_allowance_relief :=
    if 0 < capital_investment then
      min capital_investment TaxConstants.ANNUAL_INVESTMENT_ALLOWANCE
        * TaxConstants.CORPORATION_TAX_SMALL_PROFITS_RATE
    else 0
  let optimal_salary := OPTIMAL_DIRECTOR_SALARY
  let remaining_profit := company_profit - optimal_salary - r_and_d_expenditure
  let optimal_corp_tax := UKTaxCalculator.calculate_corporation_tax sched remaining_profit
  let profit_after_tax := remaining_profit - optimal_corp_tax.corporation_tax
  { r_and_d_relief := pyRound2 r_and_d_relief
    capital_allowance_relief := pyRound2 capital_allowance_relief
    total_relief := pyRound2 (r_and_d_relief + capital_allowance_relief)
    maximum_dividend := pyRound2 profit_after_tax }

/-- `optimize_for_company_owner`: validate company_profit, salary, dividends,
r_and_d_expenditure and capital_investment (in source order), then compute. -/
def optimize_for_company_owner (company_profit salary dividends r_and_d_expenditure capital_investment : ℚ) :
    Except String CompanyOwnerResult :=
  withValidation
    (validateNonneg [("company_profit", company_profit), ("salary", salary),
      ("dividends", dividends), ("r_and_d_expenditure", r_and_d_expenditure),
      ("capital_investment", capital_investment)])
    ("Invalid input for company owner optimization: ")
    (companyOwnerCore company_profit salary dividends r_and_d_expenditure capital_investment)

structure LandlordResult where
  use_property_allowance : Bool
  taxable_income : ℚ
  actual_tax : ℚ
  finance_cost_relief : ℚ
  incorporation_recommended : Bool
deriving DecidableEq, Repr

def INCORPORATION_SAVINGS_THRESHOLD : ℚ := 1000

def INCORPORATION_PROPERTIES_THRESHOLD : ℤ := 3

/-- The numeric core of `optimize_for_landlord`: property allowance only
when rental income is at or below the allowance and expenses plus mortgage
interest are below it; otherwise expenses are deducted and mortgage
interest becomes a 20 percent tax reducer. -/
def landlordCore (rental_income mortgage_interest other_expenses : ℚ)
    (is_furnished : Bool) (number_of_properties : ℤ) : LandlordResult :=
  let use_property_allowance := decide (rental_income ≤ TaxReliefs.PROPERTY_ALLOWANCE)
    && decide (other_expenses + mortgage_interest < TaxReliefs.PROPERTY_ALLOWANCE)
  let taxable_income :=
    if use_property_allowance then
      (TaxReliefs.calculate_property_allowance rental_income).taxable_income
    else max 0 (rental_income - other_expenses)
  let finance_cost_relief := mortgage_interest * TaxConstants.BASIC_RATE
  let paye := UKTaxCalculator.calculate_paye sched taxable_income
  let actual_tax :=
    if use_property_allowance = false ∧ 0 < mortgage_interest then
      max 0 (paye.income_tax - finance_cost_relief) + paye.employee_ni
    else paye.total_employee_deductions
  let corp_tax_calc := UKTaxCalculator.calculate_corporation_tax sched
    (rental_income - other_expenses - mortgage_interest)
  let incorporation_saving := actual_tax - corp_tax_calc.corporation_tax
  { use_property_allowance := use_property_allowance
    taxable_income := pyRound2 taxable_income
    actual_tax := pyRound2 actual_tax
    finance_cost_relief :=
      if use_property_allowance then 0 else pyRound2 finance_cost_relief
    incorporation_recommended :=
      decide (INCORPORATION_SAVINGS_THRESHOLD < incorporation_saving)
        && decide (INCORPORATION_PROPERTIES_THRESHOLD ≤ number_of_properties) }

/-- The validation of `optimize_for_landlord`: monetary fields first, then
the positive-integer check on the property count. -/
def landlordValidate (rental_income mortgage_interest other_expenses : ℚ)
    (number_of_properties : ℤ) : Except String Unit :=
  match validateNonneg [("rental_income", rental_income),
      ("mortgage_interest", mortgage_interest), ("other_expenses", other_expenses)] with
  | Except.error e => Except.error e
  | Except.ok _ =>
    if number_of_properties < 1 then
      Except.error ("number_of_properties must be a positive integer")
    else Except.ok ()

/-- `optimize_for_landlord`: validate, then compute. -/
def optimize_for_landlord (rental_income mortgage_interest other_expenses : ℚ)
    (is_furnished : Bool) (number_of_properties : ℤ) : Except String LandlordResult :=
  withValidation
    (landlordValidate rental_income mortgage_interest other_expenses number_of_properties)
    ("Invalid input for landlord optimization: ")
    (landlordCore rental_income mortgage_interest other_expenses is_furnished number_of_properties)

end TaxOptimizationEngine

/-!
Claim theorems.
-/

/-- C1: for every non-negative dividends amount and non-negative
other_income, the dividend-tax band allocations are each non-negative and
sum exactly to `taxable_dividends = max 0 (dividends - dividend_allowance)`
(for any tax-year schedule). -/
theorem dividend_allocation_law (s : TaxYearSchedule) (dividends other_income : ℚ)
    (hd : 0 ≤ dividends) (ho : 0 ≤ other_income) :
    0 ≤ (UKTaxCalculator.dividendAllocations s dividends other_income).1 ∧
    0 ≤ (UKTaxCalculator.dividendAllocations s dividends other_income).2.1 ∧
    0 ≤ (UKTaxCalculator.dividendAllocations s dividends other_income).2.2 ∧
    (UKTaxCalculator.dividendAllocations s dividends other_income).1
      + (UKTaxCalculator.dividendAllocations s dividends other_income).2.1
      + (UKTaxCalculator.dividendAllocations s dividends other_income).2.2
      = max 0 (dividends - s.dividend_allowance) := by
  unfold UKTaxCalculator.dividendAllocations
  dsimp only
  set td := max 0 (dividends - s.dividend_allowance) with htd
  set ot := max 0 (other_income - UKTaxCalculator.taperedAllowanceS s other_income) with hot
  set bw := s.basic_rate_threshold - s.personal_allowance with hbw
  set hw := s.higher_rate_threshold - s.basic_rate_threshold with hhw
  have h0td : 0 ≤ td := le_max_left _ _
  have h0br : 0 ≤ max 0 (bw - ot) := le_max_left _ _
  have h0hr : 0 ≤ max 0 (hw - min (max 0 (ot - bw)) hw) := le_max_left _ _
  have hb_le : min td (max 0 (bw - ot)) ≤ td := min_le_left _ _
  have hh_le : min (td - min td (max 0 (bw - ot))) (max 0 (hw - min (max 0 (ot - bw)) hw))
      ≤ td - min td (max 0 (bw - ot)) := min_le_left _ _
  refine ⟨le_min h0td h0br, le_min (by linarith) h0hr, by linarith, by ring⟩

/-- Witness for C1 at dividends = 20000, other_income = 30000 on the default
2024/25 schedule. -/
theorem dividend_allocation_law_witness :
    0 ≤ (UKTaxCalculator.dividendAllocations TaxYearSchedule.default2425 20000 30000).1 ∧
    0 ≤ (UKTaxCalculator.dividendAllocations TaxYearSchedule.default2425 20000 30000).2.1 ∧
    0 ≤ (UKTaxCalculator.dividendAllocations TaxYearSchedule.default2425 20000 30000).2.2 ∧
    (UKTaxCalculator.dividendAllocations TaxYearSchedule.default2425 20000 30000).1
      + (UKTaxCalculator.dividendAllocations TaxYearSchedule.default2425 20000 30000).2.1
      + (UKTaxCalculator.dividendAllocations TaxYearSchedule.default2425 20000 30000).2.2
      = max 0 (20000 - TaxYearSchedule.default2425.dividend_allowance) :=
  dividend_allocation_law TaxYearSchedule.default2425 20000 30000 (by norm_num) (by norm_num)

/-- C9: with non-negative inputs, the PAYE calculator (and the
`calculate_paye` convenience function) raises a validation error whenever
deductions exceed gross income. -/
theorem paye_deductions_exceed_error (g d : ℚ) (hg : 0 ≤ g) (hd : 0 ≤ d) (h : g < d) :
    PAYECalculator.calculate g d
      = Except.error ("Deductions cannot exceed gross income") ∧
    calculate_paye g d = Except.error ("Deductions cannot exceed gross income") := by
  have hv : PAYECalculator.validate_inputs g d
      = Except.error ("Deductions cannot exceed gross income") := by
    unfold PAYECalculator.validate_inputs
    rw [if_neg (not_lt.mpr hg), if_neg (not_lt.mpr hd), if_pos h]
  have hc : PAYECalculator.calculate g d
      = Except.error ("Deductions cannot exceed gross income") := by
    unfold PAYECalculator.calculate
    rw [hv]
  exact ⟨hc, hc⟩

/-- Witness for C9 at gross income 5, deductions 10. -/
theorem paye_deductions_exceed_error_witness :
    PAYECalculator.calculate 5 10
      = Except.error ("Deductions cannot exceed gross income") ∧
    calculate_paye 5 10 = Except.error ("Deductions cannot exceed gross income") :=
  paye_deductions_exceed_error 5 10 (by norm_num) (by norm_num) (by norm_num)

/-- C7: for every adjusted income, the Decimal-based PAYE taper and the
float-based TaxOptimizer taper compute the same personal allowance: the full
£12,570 at or below £100,000, and `max 0 (12570 - (income - 100000) / 2)`
above it. -/
theorem personal_allowance_taper_agreement (income : ℚ) :
    PAYECalculator.taperedAllowance income
      = TaxOptimizer.calculate_personal_allowance TaxRules.default2425 income ∧
    (income ≤ 100000 → PAYECalculator.taperedAllowance income = 12570) ∧
    (100000 < income →
      PAYECalculator.taperedAllowance income = max 0 (12570 - (income - 100000) / 2)) := by
  by_cases h : 100000 < income
  · have h' : ¬ income ≤ 100000 := not_le.mpr h
    refine ⟨?_, fun hle => absurd hle h', fun _ => ?_⟩
    · unfold PAYECalculator.taperedAllowance TaxOptimizer.calculate_personal_allowance
        PAYECalculator.PERSONAL_ALLOWANCE TaxRules.default2425
      rw [if_pos h, if_neg h']
    · unfold PAYECalculator.taperedAllowance PAYECalculator.PERSONAL_ALLOWANCE
      rw [if_pos h]
  · have h' : income ≤ 100000 := not_lt.mp h
    refine ⟨?_, fun _ => ?_, fun hlt => absurd hlt h⟩
    · unfold PAYECalculator.taperedAllowance TaxOptimizer.calculate_personal_allowance
        PAYECalculator.PERSONAL_ALLOWANCE TaxRules.default2425
      rw [if_neg h, if_pos h']
    · unfold PAYECalculator.taperedAllowance PAYECalculator.PERSONAL_ALLOWANCE
      rw [if_neg h]

/-- Witness for C7 at adjusted income 110000 (both tapers give £7,570). -/
theorem personal_allowance_taper_agreement_witness :
    PAYECalculator.taperedAllowance 110000
      = TaxOptimizer.calculate_personal_allowance TaxRules.default2425 110000 ∧
    PAYECalculator.taperedAllowance 110000 = max 0 (12570 - ((110000 : ℚ) - 100000) / 2) :=
  ⟨(personal_allowance_taper_agreement 110000).1,
    (personal_allowance_taper_agreement 110000).2.2 (by norm_num)⟩

/-- C8: for positive R&D expenditure, the SME R&D relief computed by the
company-owner optimizer is the enhanced deduction
`e * (1 + enhancement_rate)` (with the code's 130 percent multiplier read as
1 + 0.30) times the small-profits corporation-tax rate, and the optimizer
reports exactly that relief (rounded to 2 decimal places). -/
theorem rd_relief_formula (company_profit salary dividends capital_investment e : ℚ)
    (he : 0 < e) :
    TaxOptimizationEngine.rdRelief e = (e * (1 + 30 / 100)) * (19 / 100) ∧
    (TaxOptimizationEngine.companyOwnerCore company_profit salary dividends e
      capital_investment).r_and_d_relief = pyRound2 (TaxOptimizationEngine.rdRelief e) := by
  constructor
  · unfold TaxOptimizationEngine.rdRelief TaxConstants.CORPORATION_TAX_SMALL_PROFITS_RATE
    rw [if_pos he]
    ring
  · rfl

/-- Witness for C8 at e = 1000 (relief £247.00). -/
theorem rd_relief_formula_witness :
    TaxOptimizationEngine.rdRelief 1000 = (1000 * (1 + 30 / 100)) * (19 / 100) ∧
    (TaxOptimizationEngine.companyOwnerCore 100000 0 0 1000 0).r_and_d_relief
      = pyRound2 (TaxOptimizationEngine.rdRelief 1000) :=
  rd_relief_formula 100000 0 0 0 1000 (by norm_num)

/-- C2 (evaluation at the failing input): for a sole trader with trading
income 800 and no expenses, pension or capital allowances, the optimizer
does select the trading-allowance method, but reports
`taxable_profit = 800 - 1000 = -200`, not the 0 the specification requires:
the code subtracts the full £1,000 allowance without capping it at the
income (it computes `calculate_trading_allowance`, which caps, and then
ignores that result). -/
theorem sole_trader_trading_allowance_eval :
    TaxOptimizationEngine.optimize_for_sole_trader 800 0 0 0
      = Except.ok (TaxOptimizationEngine.soleTraderCore 800 0 0 0) ∧
    (TaxOptimizationEngine.soleTraderCore 800 0 0 0).use_allowance = true ∧
    (TaxOptimizationEngine.soleTraderCore 800 0 0 0).taxable_profit = -200 := by
  refine ⟨?_, ?_, ?_⟩
  · norm_num [TaxOptimizationEngine.optimize_for_sole_trader,
      TaxOptimizationEngine.withValidation, TaxOptimizationEngine.validateNonneg]
  · norm_num [TaxOptimizationEngine.soleTraderCore, TaxReliefs.TRADING_ALLOWANCE]
  · norm_num [TaxOptimizationEngine.soleTraderCore, TaxReliefs.TRADING_ALLOWANCE,
      pyRound2, roundHalfEven]

/-- C3 counterexample: for a landlord with rental income 2000, no mortgage
interest and no other expenses, the optimizer does NOT choose the
property-allowance method (the code requires `rental_income ≤ 1000`):
`use_property_allowance` is false and the reported taxable income is 2000,
refuting the claimed `true` and `1000`. -/
theorem landlord_allowance_counterexample :
    (TaxOptimizationEngine.optimize_for_landlord 2000 0 0 false 1).toOption.map
      TaxOptimizationEngine.LandlordResult.use_property_allowance = some false ∧
    (TaxOptimizationEngine.optimize_for_landlord 2000 0 0 false 1).toOption.map
      TaxOptimizationEngine.LandlordResult.taxable_income = some 2000 := by
  have hok : TaxOptimizationEngine.optimize_for_landlord 2000 0 0 false 1
      = Except.ok (TaxOptimizationEngine.landlordCore 2000 0 0 false 1) := by
    norm_num [TaxOptimizationEngine.optimize_for_landlord,
      TaxOptimizationEngine.landlordValidate, TaxOptimizationEngine.validateNonneg,
      TaxOptimizationEngine.withValidation]
  rw [hok]
  refine ⟨?_, ?_⟩
  · norm_num [TaxOptimizationEngine.landlordCore, TaxReliefs.PROPERTY_ALLOWANCE,
      Except.toOption]
  · norm_num [TaxOptimizationEngine.landlordCore, TaxReliefs.PROPERTY_ALLOWANCE,
      TaxReliefs.calculate_property_allowance, Except.toOption, pyRound2, roundHalfEven]

/-- C3 amended: for rental income 2000 with no mortgage interest and no
other expenses, the landlord optimizer uses the expenses method
(`use_property_allowance` false) and reports taxable income 2000. -/
theorem landlord_allowance_amended :
    TaxOptimizationEngine.optimize_for_landlord 2000 0 0 false 1
      = Except.ok (TaxOptimizationEngine.landlordCore 2000 0 0 false 1) ∧
    (TaxOptimizationEngine.landlordCore 2000 0 0 false 1).use_property_allowance = false ∧
    (TaxOptimizationEngine.landlordCore 2000 0 0 false 1).taxable_income = 2000 := by
  refine ⟨?_, ?_, ?_⟩
  · norm_num [TaxOptimizationEngine.optimize_for_landlord,
      TaxOptimizationEngine.landlordValidate, TaxOptimizationEngine.validateNonneg,
      TaxOptimizationEngine.withValidation]
  · norm_num [TaxOptimizationEngine.landlordCore, TaxReliefs.PROPERTY_ALLOWANCE]
  · norm_num [TaxOptimizationEngine.landlordCore, TaxReliefs.PROPERTY_ALLOWANCE,
      TaxReliefs.calculate_property_allowance, pyRound2, roundHalfEven]

/-- C4 counterexample: `TaxOptimizer.optimize_sole_trader` (from
src/backend/tax_optimizer.py) performs no input validation: called with a
negative income of -100 it raises nothing and returns a result with
`current_profit = -100`, refuting the claim that every archetype optimizer
rejects negative monetary inputs. -/
theorem negative_input_no_validation_counterexample :
    isErr (TaxOptimizer.optimize_sole_trader TaxRules.default2425 (-100) 0) = false ∧
    (TaxOptimizer.optimize_sole_trader TaxRules.default2425 (-100) 0).toOption.map
      TaxOptimizer.SoleTraderOpt.current_profit = some (-100) := by
  refine ⟨rfl, ?_⟩
  norm_num [TaxOptimizer.optimize_sole_trader, TaxOptimizer.soleTraderOptCore,
    Except.toOption]

/-- Any list of (field, value) checks containing a negative value makes
`validateNonneg` error. -/
theorem validateNonneg_err (n : String) (x : ℚ) (l : List (String × ℚ))
    (hmem : (n, x) ∈ l) (hx : x < 0) :
    isErr (TaxOptimizationEngine.validateNonneg l) = true := by
  induction l with
  | nil => cases hmem
  | cons hd tl ih =>
    obtain ⟨n0, v0⟩ := hd
    unfold TaxOptimizationEngine.validateNonneg
    by_cases h0 : v0 < 0
    · rw [if_pos h0]; rfl
    · rw [if_neg h0]
      rcases List.mem_cons.mp hmem with heq | hmem2
      · cases heq
        exact absurd hx h0
      · exact ih hmem2

/-- `withValidation` errors exactly when the validation does. -/
theorem isErr_withValidation {α : Type} (v : Except String Unit) (c : String) (r : α) :
    isErr (TaxOptimizationEngine.withValidation v c r) = isErr v := by
  cases v <;> rfl

/-- A source list containing a negative amount makes `validateSources`
error. -/
theorem validateSources_err {l : List (String × ℚ)} {n : String} {x : ℚ}
    (hmem : (n, x) ∈ l) (hx : x < 0) :
    isErr (SelfAssessmentCalculator.validateSources l) = true := by
  induction l with
  | nil => cases hmem
  | cons hd tl ih =>
    obtain ⟨n0, v0⟩ := hd
    unfold SelfAssessmentCalculator.validateSources
    by_cases h0 : v0 < 0
    · rw [if_pos h0]; rfl
    · rw [if_neg h0]
      rcases List.mem_cons.mp hmem with heq | hmem2
      · cases heq
        exact absurd hx h0
      · exact ih hmem2

/-- A deduction list containing a negative amount makes
`validateDeductions` error (either on an earlier invalid entry or on the
negative amount itself). -/
theorem validateDeductions_err {l : List (String × ℚ)} {n : String} {x : ℚ}
    (hmem : (n, x) ∈ l) (hx : x < 0) :
    isErr (SelfAssessmentCalculator.validateDeductions l) = true := by
  induction l with
  | nil => cases hmem
  | cons hd tl ih =>
    obtain ⟨n0, v0⟩ := hd
    unfold SelfAssessmentCalculator.validateDeductions
    by_cases ht : n0 = "pension" ∨ n0 = "charity" ∨ n0 = "trading_losses" ∨ n0 = "other"
    · rw [if_pos ht]
      by_cases h0 : v0 < 0
      · rw [if_pos h0]; rfl
      · rw [if_neg h0]
        rcases List.mem_cons.mp hmem with heq | hmem2
        · cases heq
          exact absurd hx h0
        · exact ih hmem2
    · rw [if_neg ht]; rfl

/-- `SelfAssessmentCalculator.calculate` errors whenever some income source
amount is negative. -/
theorem selfAssessment_err_source (pre post : List (String × ℚ)) (t : String)
    {x : ℚ} (hx : x < 0) (ded : List (String × ℚ)) :
    isErr (SelfAssessmentCalculator.calculate (pre ++ (t, x) :: post) ded) = true := by
  have hmem : (t, x) ∈ pre ++ (t, x) :: post := List.mem_append_right _ (List.mem_cons_self _ _)
  have hne : ¬ (pre ++ (t, x) :: post = []) := by simp
  have hv := validateSources_err hmem hx
  unfold SelfAssessmentCalculator.calculate
  rw [if_neg hne]
  cases hvs : SelfAssessmentCalculator.validateSources (pre ++ (t, x) :: post) with
  | error e => rfl
  | ok u => rw [hvs] at hv; simp [isErr] at hv

/-- `SelfAssessmentCalculator.calculate` errors whenever some deduction
amount is negative. -/
theorem selfAssessment_err_ded (srcs pre post : List (String × ℚ)) (t : String)
    {x : ℚ} (hx : x < 0) :
    isErr (SelfAssessmentCalculator.calculate srcs (pre ++ (t, x) :: post)) = true := by
  have hmem : (t, x) ∈ pre ++ (t, x) :: post := List.mem_append_right _ (List.mem_cons_self _ _)
  have hv := validateDeductions_err hmem hx
  unfold SelfAssessmentCalculator.calculate
  by_cases hne : srcs = []
  · rw [if_pos hne]; rfl
  · rw [if_neg hne]
    cases hvs : SelfAssessmentCalculator.validateSources srcs with
    | error e => rfl
    | ok u =>
      cases hvd : SelfAssessmentCalculator.validateDeductions (pre ++ (t, x) :: post) with
      | error e => rfl
      | ok u2 => rw [hvd] at hv; simp [isErr] at hv

/-- The PAYE calculator errors whenever either monetary input is negative. -/
theorem paye_err_neg {x : ℚ} (hx : x < 0) (y : ℚ) :
    isErr (PAYECalculator.calculate x y) = true ∧
    isErr (PAYECalculator.calculate y x) = true := by
  constructor
  · unfold PAYECalculator.calculate PAYECalculator.validate_inputs
    rw [if_pos hx]
    rfl
  · unfold PAYECalculator.calculate PAYECalculator.validate_inputs
    by_cases hy : y < 0
    · rw [if_pos hy]; rfl
    · rw [if_neg hy, if_pos hx]; rfl

/-- The corporate tax calculator errors whenever any of its four monetary
inputs is negative. -/
theorem corporate_err_neg {x : ℚ} (hx : x < 0) (a b c : ℚ) (sme : Bool) :
    isErr (CorporateTaxCalculator.calculate x a b c sme) = true ∧
    isErr (CorporateTaxCalculator.calculate a x b c sme) = true ∧
    isErr (CorporateTaxCalculator.calculate a b x c sme) = true ∧
    isErr (CorporateTaxCalculator.calculate a b c x sme) = true := by
  unfold CorporateTaxCalculator.calculate CorporateTaxCalculator.validate_inputs
  refine ⟨?_, ?_, ?_, ?_⟩ <;>
    (by_cases h1 : a < 0 <;> by_cases h2 : b < 0 <;> by_cases h3 : c < 0 <;>
      simp [hx, h1, h2, h3, isErr])

/-- `landlordValidate` errors whenever one of the three monetary inputs is
negative, whatever the property count. -/
theorem landlordValidate_err_mon {x : ℚ} (hx : x < 0) (a b : ℚ) (n : ℤ) :
    isErr (TaxOptimizationEngine.landlordValidate x a b n) = true ∧
    isErr (TaxOptimizationEngine.landlordValidate a x b n) = true ∧
    isErr (TaxOptimizationEngine.landlordValidate a b x n) = true := by
  refine ⟨?_, ?_, ?_⟩
  · unfold TaxOptimizationEngine.landlordValidate
    have hv := validateNonneg_err ("rental_income") x [("rental_income", x),
      ("mortgage_interest", a), ("other_expenses", b)] (by simp) hx
    cases hvs : TaxOptimizationEngine.validateNonneg [("rental_income", x),
        ("mortgage_interest", a), ("other_expenses", b)] with
    | error e => rfl
    | ok u => rw [hvs] at hv; simp [isErr] at hv
  · unfold TaxOptimizationEngine.landlordValidate
    have hv := validateNonneg_err ("mortgage_interest") x [("rental_income", a),
      ("mortgage_interest", x), ("other_expenses", b)] (by simp) hx
    cases hvs : TaxOptimizationEngine.validateNonneg [("rental_income", a),
        ("mortgage_interest", x), ("other_expenses", b)] with
    | error e => rfl
    | ok u => rw [hvs] at hv; simp [isErr] at hv
  · unfold TaxOptimizationEngine.landlordValidate
    have hv := validateNonneg_err ("other_expenses") x [("rental_income", a),
      ("mortgage_interest", b), ("other_expenses", x)] (by simp) hx
    cases hvs : TaxOptimizationEngine.validateNonneg [("rental_income", a),
        ("mortgage_interest", b), ("other_expenses", x)] with
    | error e => rfl
    | ok u => rw [hvs] at hv; simp [isErr] at hv

/-- C4 amended: the PAYE, self-assessment and corporation-tax calculators
and the four `TaxOptimizationEngine` archetype optimizers each raise a
validation error, before any computation, whenever any of their monetary
inputs is negative (in any argument position); but `TaxOptimizer`'s
optimizers (src/backend/tax_optimizer.py) perform no such validation and
return a result for negative inputs. -/
theorem negative_input_validation (x a b c d : ℚ) (t : String)
    (pre post srcs ded : List (String × ℚ)) (sme fur : Bool) (n : ℤ)
    (hx : x < 0) :
    isErr (PAYECalculator.calculate x a) = true ∧
    isErr (PAYECalculator.calculate a x) = true ∧
    isErr (SelfAssessmentCalculator.calculate (pre ++ (t, x) :: post) ded) = true ∧
    isErr (SelfAssessmentCalculator.calculate srcs (pre ++ (t, x) :: post)) = true ∧
    isErr (CorporateTaxCalculator.calculate x a b c sme) = true ∧
    isErr (CorporateTaxCalculator.calculate a x b c sme) = true ∧
    isErr (CorporateTaxCalculator.calculate a b x c sme) = true ∧
    isErr (CorporateTaxCalculator.calculate a b c x sme) = true ∧
    isErr (TaxOptimizationEngine.optimize_for_director x a b c) = true ∧
    isErr (TaxOptimizationEngine.optimize_for_director a x b c) = true ∧
    isErr (TaxOptimizationEngine.optimize_for_director a b x c) = true ∧
    isErr (TaxOptimizationEngine.optimize_for_director a b c x) = true ∧
    isErr (TaxOptimizationEngine.optimize_for_sole_trader x a b c) = true ∧
    isErr (TaxOptimizationEngine.optimize_for_sole_trader a x b c) = true ∧
    isErr (TaxOptimizationEngine.optimize_for_sole_trader a b x c) = true ∧
    isErr (TaxOptimizationEngine.optimize_for_sole_trader a b c x) = true ∧
    isErr (TaxOptimizationEngine.optimize_for_company_owner x a b c d) = true ∧
    isErr (TaxOptimizationEngine.optimize_for_company_owner a x b c d) = true ∧
    isErr (TaxOptimizationEngine.optimize_for_company_owner a b x c d) = true ∧
    isErr (TaxOptimizationEngine.optimize_for_company_owner a b c x d) = true ∧
    isErr (TaxOptimizationEngine.optimize_for_company_owner a b c d x) = true ∧
    isErr (TaxOptimizationEngine.optimize_for_landlord x a b fur n) = true ∧
    isErr (TaxOptimizationEngine.optimize_for_landlord a x b fur n) = true ∧
    isErr (TaxOptimizationEngine.optimize_for_landlord a b x fur n) = true ∧
    isErr (TaxOptimizer.optimize_sole_trader TaxRules.default2425 x a) = false := by
  obtain ⟨hp1, hp2⟩ := paye_err_neg hx a
  obtain ⟨hc1, hc2, hc3, hc4⟩ := corporate_err_neg hx a b c sme
  obtain ⟨hl1, hl2, hl3⟩ := landlordValidate_err_mon hx a b n
  refine ⟨hp1, hp2, selfAssessment_err_source pre post t hx ded,
    selfAssessment_err_ded srcs pre post t hx, hc1, hc2, hc3, hc4,
    ?_, ?_, ?_, ?_, ?_, ?_, ?_, ?_, ?_, ?_, ?_, ?_, ?_, ?_, ?_, ?_, rfl⟩
  · unfold TaxOptimizationEngine.optimize_for_director
    rw [isErr_withValidation]
    exact validateNonneg_err ("salary") x _ (by simp) hx
  · unfold TaxOptimizationEngine.optimize_for_director
    rw [isErr_withValidation]
    exact validateNonneg_err ("dividends") x _ (by simp) hx
  · unfold TaxOptimizationEngine.optimize_for_director
    rw [isErr_withValidation]
    exact validateNonneg_err ("company_profit") x _ (by simp) hx
  · unfold TaxOptimizationEngine.optimize_for_director
    rw [isErr_withValidation]
    exact validateNonneg_err ("pension_contribution") x _ (by simp) hx
  · unfold TaxOptimizationEngine.optimize_for_sole_trader
    rw [isErr_withValidation]
    exact validateNonneg_err ("trading_income") x _ (by simp) hx
  · unfold TaxOptimizationEngine.optimize_for_sole_trader
    rw [isErr_withValidation]
    exact validateNonneg_err ("allowable_expenses") x _ (by simp) hx
  · unfold TaxOptimizationEngine.optimize_for_sole_trader
    rw [isErr_withValidation]
    exact validateNonneg_err ("pension_contribution") x _ (by simp) hx
  · unfold TaxOptimizationEngine.optimize_for_sole_trader
    rw [isErr_withValidation]
    exact validateNonneg_err ("capital_allowances") x _ (by simp) hx
  · unfold TaxOptimizationEngine.optimize_for_company_owner
    rw [isErr_withValidation]
    exact validateNonneg_err ("company_profit") x _ (by simp) hx
  · unfold TaxOptimizationEngine.optimize_for_company_owner
    rw [isErr_withValidation]
    exact validateNonneg_err ("salary") x _ (by simp) hx
  · unfold TaxOptimizationEngine.optimize_for_company_owner
    rw [isErr_withValidation]
    exact validateNonneg_err ("dividends") x _ (by simp) hx
  · unfold TaxOptimizationEngine.optimize_for_company_owner
    rw [isErr_withValidation]
    exact validateNonneg_err ("r_and_d_expenditure") x _ (by simp) hx
  · unfold TaxOptimizationEngine.optimize_for_company_owner
    rw [isErr_withValidation]
    exact validateNonneg_err ("capital_investment") x _ (by simp) hx
  · unfold TaxOptimizationEngine.optimize_for_landlord
    rw [isErr_withValidation]
    exact hl1
  · unfold TaxOptimizationEngine.optimize_for_landlord
    rw [isErr_withValidation]
    exact hl2
  · unfold TaxOptimizationEngine.optimize_for_landlord
    rw [isErr_withValidation]
    exact hl3

/-- Witness for C4 at x = -5 with all other arguments concrete. -/
theorem negative_input_validation_witness :
    isErr (PAYECalculator.calculate (-5) 0) = true ∧
    isErr (PAYECalculator.calculate 0 (-5)) = true ∧
    isErr (SelfAssessmentCalculator.calculate [("employment", -5)] []) = true ∧
    isErr (SelfAssessmentCalculator.calculate [] [("pension", -5)]) = true ∧
    isErr (CorporateTaxCalculator.calculate (-5) 0 0 0 true) = true ∧
    isErr (TaxOptimizationEngine.optimize_for_director (-5) 0 0 0) = true ∧
    isErr (TaxOptimizationEngine.optimize_for_sole_trader (-5) 0 0 0) = true ∧
    isErr (TaxOptimizationEngine.optimize_for_company_owner (-5) 0 0 0 0) = true ∧
    isErr (TaxOptimizationEngine.optimize_for_landlord (-5) 0 0 false 1) = true ∧
    isErr (TaxOptimizer.optimize_sole_trader TaxRules.default2425 (-5) 0) = false := by
  have h := negative_input_validation (-5) 0 0 0 0 "employment" [] [] [] []
    true false 1 (by norm_num)
  exact ⟨h.1, h.2.1, h.2.2.1, h.2.2.2.1, h.2.2.2.2.1, h.2.2.2.2.2.2.2.2.1,
    h.2.2.2.2.2.2.2.2.2.2.2.2.1, h.2.2.2.2.2.2.2.2.2.2.2.2.2.2.2.2.1,
    h.2.2.2.2.2.2.2.2.2.2.2.2.2.2.2.2.2.2.2.2.2.1,
    h.2.2.2.2.2.2.2.2.2.2.2.2.2.2.2.2.2.2.2.2.2.2.2.2⟩

/-- The marginal-relief interpolation formula of the specification:
`tax = P * main_rate - (upper_limit - P) * marginal_fraction` with the
2024/25 constants. -/
def marginalFormula (P : ℚ) : ℚ := P * (25 / 100) - (250000 - P) * (15 / 1000)

/-- C5: the corporation-tax computation is continuous at both profit limits:
at the lower limit the tax is `lower_limit * small_rate` (£9,500), at the
upper limit `upper_limit * main_rate` (£62,500); the marginal-relief formula
takes exactly those values at the limits, and inside the window the
Decimal-based calculator differs from the exact formula by at most the
2-decimal-place rounding tolerance (£0.01), while the float-based
transaction computation matches the formula exactly. -/
theorem corporation_tax_continuity (P : ℚ) (h1 : 50000 < P) (h2 : P < 250000) :
    CorporateTaxCalculator.taxOnTaxableProfit 50000 = 9500 ∧
    CorporateTaxCalculator.taxOnTaxableProfit 250000 = 62500 ∧
    marginalFormula 50000 = 50000 * (19 / 100) ∧
    marginalFormula 250000 = 250000 * (25 / 100) ∧
    |CorporateTaxCalculator.taxOnTaxableProfit P - marginalFormula P| ≤ 1 / 100 ∧
    UKTaxComputations.corporationTaxOnProfit 50000 = 9500 ∧
    UKTaxComputations.corporationTaxOnProfit 250000 = 62500 ∧
    UKTaxComputations.corporationTaxOnProfit P = marginalFormula P := by
  have hP0 : P ≠ 0 := ne_of_gt (by linarith)
  refine ⟨?_, ?_, ?_, ?_, ?_, ?_, ?_, ?_⟩
  · norm_num [CorporateTaxCalculator.taxOnTaxableProfit,
      CorporateTaxCalculator.SMALL_PROFITS_THRESHOLD,
      CorporateTaxCalculator.SMALL_PROFITS_RATE, quantize2, round_eq]
  · norm_num [CorporateTaxCalculator.taxOnTaxableProfit,
      CorporateTaxCalculator.SMALL_PROFITS_THRESHOLD,
      CorporateTaxCalculator.MAIN_RATE_THRESHOLD,
      CorporateTaxCalculator.MAIN_RATE, quantize2, round_eq]
  · norm_num [marginalFormula]
  · norm_num [marginalFormula]
  · have hform : CorporateTaxCalculator.taxOnTaxableProfit P
        = quantize2 (P * (25 / 100)) - quantize2 ((250000 - P) * (15 / 1000)) := by
      unfold CorporateTaxCalculator.taxOnTaxableProfit
        CorporateTaxCalculator.calculate_marginal_relief
        CorporateTaxCalculator.SMALL_PROFITS_THRESHOLD
        CorporateTaxCalculator.MAIN_RATE_THRESHOLD CorporateTaxCalculator.MAIN_RATE
      rw [if_neg (by linarith), if_neg (by linarith), if_neg (by linarith),
        if_neg (by linarith), div_self hP0, mul_one]
    rw [hform]
    have ha := abs_le.mp (@quantize2_err_le (P * (25 / 100)))
    have hb := abs_le.mp (@quantize2_err_le ((250000 - P) * (15 / 1000)))
    unfold marginalFormula
    rw [abs_le]
    constructor <;> linarith [ha.1, ha.2, hb.1, hb.2]
  · norm_num [UKTaxComputations.corporationTaxOnProfit]
  · norm_num [UKTaxComputations.corporationTaxOnProfit]
  · unfold UKTaxComputations.corporationTaxOnProfit marginalFormula
    rw [if_pos (by linarith), if_neg (by linarith), if_neg (by linarith)]

/-- Witness for C5 at taxable profit 150000. -/
theorem corporation_tax_continuity_witness :
    CorporateTaxCalculator.taxOnTaxableProfit 50000 = 9500 ∧
    CorporateTaxCalculator.taxOnTaxableProfit 250000 = 62500 ∧
    marginalFormula 50000 = 50000 * (19 / 100) ∧
    marginalFormula 250000 = 250000 * (25 / 100) ∧
    |CorporateTaxCalculator.taxOnTaxableProfit 150000 - marginalFormula 150000| ≤ 1 / 100 ∧
    UKTaxComputations.corporationTaxOnProfit 50000 = 9500 ∧
    UKTaxComputations.corporationTaxOnProfit 250000 = 62500 ∧
    UKTaxComputations.corporationTaxOnProfit 150000 = marginalFormula 150000 :=
  corporation_tax_continuity 150000 (by norm_num) (by norm_num)

/-- The corporation-tax branch is non-negative on non-negative taxable
profit (in the marginal-relief window the relief never exceeds the tax at
the main rate, even after per-term rounding). -/
theorem taxOnTaxableProfit_nonneg (t : ℚ) (ht : 0 ≤ t) :
    0 ≤ CorporateTaxCalculator.taxOnTaxableProfit t := by
  unfold CorporateTaxCalculator.taxOnTaxableProfit
    CorporateTaxCalculator.SMALL_PROFITS_THRESHOLD
    CorporateTaxCalculator.MAIN_RATE_THRESHOLD
    CorporateTaxCalculator.SMALL_PROFITS_RATE CorporateTaxCalculator.MAIN_RATE
  split_ifs with hA hB
  · exact quantize2_nonneg (mul_nonneg ht (by norm_num))
  · exact quantize2_nonneg (mul_nonneg ht (by norm_num))
  · push_neg at hA hB
    have ht0 : t ≠ 0 := ne_of_gt (by linarith)
    have hrel : CorporateTaxCalculator.calculate_marginal_relief t
        = quantize2 ((250000 - t) * (15 / 1000)) := by
      unfold CorporateTaxCalculator.calculate_marginal_relief
        CorporateTaxCalculator.SMALL_PROFITS_THRESHOLD
        CorporateTaxCalculator.MAIN_RATE_THRESHOLD
      rw [if_neg (by linarith), if_neg (by linarith), div_self ht0, mul_one]
    rw [hrel]
    have ha := abs_le.mp (@quantize2_err_le (t * (25 / 100)))
    have hb := abs_le.mp (@quantize2_err_le ((250000 - t) * (15 / 1000)))
    linarith [ha.1, hb.2]

/-- C10: with valid (non-negative) inputs the corporate tax calculation
succeeds, the returned taxable profit and corporation tax are both
non-negative, and the call succeeds even when expenses exceed gross profit,
in which case the returned net profit can be negative (gross 100, expenses
200 gives net profit -100). -/
theorem corporate_tax_invariants (g e r l : ℚ) (sme : Bool)
    (hg : 0 ≤ g) (he : 0 ≤ e) (hr : 0 ≤ r) (hl : 0 ≤ l) :
    CorporateTaxCalculator.calculate g e r l sme
      = Except.ok (CorporateTaxCalculator.calcCore g e r l sme) ∧
    0 ≤ (CorporateTaxCalculator.calcCore g e r l sme).taxable_profit ∧
    0 ≤ (CorporateTaxCalculator.calcCore g e r l sme).corporation_tax ∧
    (CorporateTaxCalculator.calculate 100 200 0 0 true).toOption.map
      CorporateTaxCalculator.CorpResult.net_profit = some (-100) := by
  refine ⟨?_, ?_, ?_, ?_⟩
  · unfold CorporateTaxCalculator.calculate CorporateTaxCalculator.validate_inputs
    rw [if_neg (not_lt.mpr hg), if_neg (not_lt.mpr he), if_neg (not_lt.mpr hr),
      if_neg (not_lt.mpr hl)]
  · exact le_max_left _ _
  · have hform : (CorporateTaxCalculator.calcCore g e r l sme).corporation_tax
        = CorporateTaxCalculator.taxOnTaxableProfit
            ((CorporateTaxCalculator.calcCore g e r l sme).taxable_profit) := rfl
    rw [hform]
    exact taxOnTaxableProfit_nonneg _ (le_max_left _ _)
  · norm_num [CorporateTaxCalculator.calculate, CorporateTaxCalculator.validate_inputs,
      CorporateTaxCalculator.calcCore, CorporateTaxCalculator.taxOnTaxableProfit,
      CorporateTaxCalculator.SMALL_PROFITS_THRESHOLD,
      CorporateTaxCalculator.SMALL_PROFITS_RATE, quantize2, round_eq,
      Except.toOption]

/-- Witness for C10 at gross 300000, expenses 20000, R&D 5000, losses 1000. -/
theorem corporate_tax_invariants_witness :
    CorporateTaxCalculator.calculate 300000 20000 5000 1000 true
      = Except.ok (CorporateTaxCalculator.calcCore 300000 20000 5000 1000 true) ∧
    0 ≤ (CorporateTaxCalculator.calcCore 300000 20000 5000 1000 true).taxable_profit ∧
    0 ≤ (CorporateTaxCalculator.calcCore 300000 20000 5000 1000 true).corporation_tax ∧
    (CorporateTaxCalculator.calculate 100 200 0 0 true).toOption.map
      CorporateTaxCalculator.CorpResult.net_profit = some (-100) :=
  corporate_tax_invariants 300000 20000 5000 1000 true (by norm_num) (by norm_num)
    (by norm_num) (by norm_num)

namespace PAYECalculator

theorem basicTax_nonneg (t : ℚ) : 0 ≤ basicTax t := by
  unfold basicTax
  split_ifs with h1 h2
  · exact quantize2_nonneg (mul_nonneg h2.le (by norm_num [BASIC_RATE]))
  · exact le_refl 0
  · exact le_refl 0

theorem higherTax_nonneg (t : ℚ) : 0 ≤ higherTax t := by
  unfold higherTax
  split_ifs with h1 h2
  · exact quantize2_nonneg (mul_nonneg h2.le (by norm_num [HIGHER_RATE]))
  · exact le_refl 0
  · exact le_refl 0

theorem additionalTax_nonneg (t : ℚ) : 0 ≤ additionalTax t := by
  unfold additionalTax
  split_ifs with h1
  · exact quantize2_nonneg (mul_nonneg (by linarith [h1.2]) (by norm_num [ADDITIONAL_RATE]))
  · exact le_refl 0

theorem basicTax_mono {t1 t2 : ℚ} (h : t1 ≤ t2) : basicTax t1 ≤ basicTax t2 := by
  by_cases h1 : 0 < t1
  · have h2 : 0 < t2 := lt_of_lt_of_le h1 h
    have hc : (0 : ℚ) < BASIC_RATE_THRESHOLD - PERSONAL_ALLOWANCE := by
      norm_num [BASIC_RATE_THRESHOLD, PERSONAL_ALLOWANCE]
    unfold basicTax
    rw [if_pos h1, if_pos h2, if_pos (lt_min h1 hc), if_pos (lt_min h2 hc)]
    exact quantize2_mono
      (mul_le_mul_of_nonneg_right (min_le_min h le_rfl) (by norm_num [BASIC_RATE]))
  · have hz : basicTax t1 = 0 := by unfold basicTax; rw [if_neg h1]
    rw [hz]
    exact basicTax_nonneg t2

theorem higherTax_mono {t1 t2 : ℚ} (h : t1 ≤ t2) : higherTax t1 ≤ higherTax t2 := by
  by_cases h1 : 0 < t1 ∧ BASIC_RATE_THRESHOLD - PERSONAL_ALLOWANCE < t1
  · have h2 : 0 < t2 ∧ BASIC_RATE_THRESHOLD - PERSONAL_ALLOWANCE < t2 :=
      ⟨lt_of_lt_of_le h1.1 h, lt_of_lt_of_le h1.2 h⟩
    have hw : (0 : ℚ) < (HIGHER_RATE_THRESHOLD - PERSONAL_ALLOWANCE)
        - (BASIC_RATE_THRESHOLD - PERSONAL_ALLOWANCE) := by
      norm_num [HIGHER_RATE_THRESHOLD, BASIC_RATE_THRESHOLD, PERSONAL_ALLOWANCE]
    have ha1 : (0 : ℚ) < t1 - (BASIC_RATE_THRESHOLD - PERSONAL_ALLOWANCE) := by
      linarith [h1.2]
    have ha2 : (0 : ℚ) < t2 - (BASIC_RATE_THRESHOLD - PERSONAL_ALLOWANCE) := by
      linarith [h2.2]
    unfold higherTax
    rw [if_pos h1, if_pos h2, if_pos (lt_min ha1 hw), if_pos (lt_min ha2 hw)]
    exact quantize2_mono (mul_le_mul_of_nonneg_right
      (min_le_min (by linarith) le_rfl) (by norm_num [HIGHER_RATE]))
  · have hz : higherTax t1 = 0 := by unfold higherTax; rw [if_neg h1]
    rw [hz]
    exact higherTax_nonneg t2

theorem additionalTax_mono {t1 t2 : ℚ} (h : t1 ≤ t2) :
    additionalTax t1 ≤ additionalTax t2 := by
  by_cases h1 : 0 < t1 ∧ HIGHER_RATE_THRESHOLD - PERSONAL_ALLOWANCE < t1
  · have h2 : 0 < t2 ∧ HIGHER_RATE_THRESHOLD - PERSONAL_ALLOWANCE < t2 :=
      ⟨lt_of_lt_of_le h1.1 h, lt_of_lt_of_le h1.2 h⟩
    unfold additionalTax
    rw [if_pos h1, if_pos h2]
    exact quantize2_mono
      (mul_le_mul_of_nonneg_right (by linarith) (by norm_num [ADDITIONAL_RATE]))
  · have hz : additionalTax t1 = 0 := by unfold additionalTax; rw [if_neg h1]
    rw [hz]
    exact additionalTax_nonneg t2

theorem sub_taper_mono {a b : ℚ} (hab : a ≤ b) :
    a - taperedAllowance a ≤ b - taperedAllowance b := by
  unfold taperedAllowance PERSONAL_ALLOWANCE
  split_ifs with ha hb hb2
  · have hmax : max 0 (12570 - (b - 100000) / 2) ≤ max 0 (12570 - (a - 100000) / 2) :=
      max_le_max le_rfl (by linarith)
    linarith [hmax]
  · exact absurd (lt_of_lt_of_le ha hab) hb
  · have hub : max 0 (12570 - (b - 100000) / 2) ≤ 12570 :=
      max_le (by norm_num) (by linarith)
    linarith [hub]
  · linarith

theorem taxable_mono {a b : ℚ} (h : a ≤ b) : taxableIncome a ≤ taxableIncome b := by
  unfold taxableIncome
  exact max_le_max le_rfl (sub_taper_mono h)

end PAYECalculator

/-- C6: with deductions fixed at 0, the total PAYE income tax (progressive
bands with personal-allowance tapering and per-band rounding) is
monotonically non-decreasing in the gross income: for 0 ≤ a ≤ b the total
tax at b is at least the total tax at a (and both calls validate). -/
theorem paye_total_tax_monotone (a b : ℚ) (ha : 0 ≤ a) (hab : a ≤ b) :
    PAYECalculator.calculate a 0 = Except.ok (PAYECalculator.calcCore a 0) ∧
    PAYECalculator.calculate b 0 = Except.ok (PAYECalculator.calcCore b 0) ∧
    (PAYECalculator.calcCore a 0).total_tax ≤ (PAYECalculator.calcCore b 0).total_tax := by
  have hb : 0 ≤ b := le_trans ha hab
  refine ⟨?_, ?_, ?_⟩
  · unfold PAYECalculator.calculate PAYECalculator.validate_inputs
    rw [if_neg (not_lt.mpr ha), if_neg (by norm_num : ¬ (0 : ℚ) < 0),
      if_neg (not_lt.mpr ha)]
  · unfold PAYECalculator.calculate PAYECalculator.validate_inputs
    rw [if_neg (not_lt.mpr hb), if_neg (by norm_num : ¬ (0 : ℚ) < 0),
      if_neg (not_lt.mpr hb)]
  · have hta : (PAYECalculator.calcCore a 0).total_tax
        = PAYECalculator.basicTax (PAYECalculator.taxableIncome a)
          + PAYECalculator.higherTax (PAYECalculator.taxableIncome a)
          + PAYECalculator.additionalTax (PAYECalculator.taxableIncome a) := by
      simp [PAYECalculator.calcCore, PAYECalculator.taxableIncome, sub_zero]
    have htb : (PAYECalculator.calcCore b 0).total_tax
        = PAYECalculator.basicTax (PAYECalculator.taxableIncome b)
          + PAYECalculator.higherTax (PAYECalculator.taxableIncome b)
          + PAYECalculator.additionalTax (PAYECalculator.taxableIncome b) := by
      simp [PAYECalculator.calcCore, PAYECalculator.taxableIncome, sub_zero]
    rw [hta, htb]
    have ht := PAYECalculator.taxable_mono hab
    exact add_le_add (add_le_add (PAYECalculator.basicTax_mono ht)
      (PAYECalculator.higherTax_mono ht)) (PAYECalculator.additionalTax_mono ht)

/-- Witness for C6 at gross incomes 20000 and 50000. -/
theorem paye_total_tax_monotone_witness :
    PAYECalculator.calculate 20000 0 = Except.ok (PAYECalculator.calcCore 20000 0) ∧
    PAYECalculator.calculate 50000 0 = Except.ok (PAYECalculator.calcCore 50000 0) ∧
    (PAYECalculator.calcCore 20000 0).total_tax
      ≤ (PAYECalculator.calcCore 50000 0).total_tax :=
  paye_total_tax_monotone 20000 50000 (by norm_num) (by norm_num)
